import Mathlib

/-!
Shallow embedding of the scheduled-synchronization and credential-lifecycle
subsystem of the nexus-seo-platform repository
(src/server/services/scheduler.ts, src/server/services/googleSearchConsole.ts,
src/server/services/pageSpeedInsights.ts), together with proofs about the
claims of the specification.

Modelling conventions:
* JavaScript numbers are modelled as exact rationals; Math.round becomes
  mathRound (floor of x + 1/2, i.e. round half toward positive infinity) and
  Math.min becomes min.
* Nullable database columns are Option values.  JavaScript truthiness of a
  nullable string column, as in "if (user.googleAccessToken)", is strTruthy,
  which is false both for none (NULL) and for the empty string.
* Async functions that can reject are Except String computations; a
  try/catch of the source is an explicit match on the Except value.
  String(error) applied to a thrown Error object is jsString.
* External HTTP endpoints and database reads are fields of explicit
  environment records; database writes are collected into lists of inserted
  rows, and the number of outgoing HTTP requests is counted, so that the
  "no network call" / "exactly one refresh call" sentences of the
  specification are statable.  The opaque rawData payload column is not
  modelled.
* Timestamps are integers (milliseconds since the epoch); the OAuth
  expires_in lifetime is in seconds, hence the factor 1000 when the new
  expiry is computed, mirroring "Date.now() + tokens.expires_in * 1000".
-/

set_option linter.unusedVariables false

namespace NexusSeo

deriving instance DecidableEq for Except

/-- JavaScript truthiness of a nullable string column: NULL and the empty
string are falsy, every other string is truthy. -/
def strTruthy : Option String → Bool
  | none => false
  | some s => s != ""

/-- String(error) for a thrown `new Error(msg)` value. -/
def jsString (msg : String) : String := "Error: " ++ msg

/-! ## Token lifecycle (src/server/services/googleSearchConsole.ts, lines 133-163) -/

/-- The token endpoint response consumed by getValidAccessToken:
access_token plus expires_in (a lifetime in seconds). -/
structure TokenResponse where
  access_token : String
  expires_in : Int
deriving DecidableEq, Repr

/-- The Google-credential columns of one users row.  All three columns are
nullable in the drizzle schema. -/
structure UserRow where
  googleRefreshToken : Option String
  googleAccessToken : Option String
  googleTokenExpiry : Option Int
deriving DecidableEq, Repr

/-- Environment of one getValidAccessToken call: whether getDb yields a
database handle, the users row selected for the given userId (none when the
select returns no row), the current time (both "new Date()" and "Date.now()"
of the source), and the outcome of the external refreshAccessToken call as a
function of the refresh token sent. -/
structure TokenEnv where
  dbAvailable : Bool
  user : Option UserRow
  now : Int
  refresh : String → Except String TokenResponse

/-- Observable outcome of getValidAccessToken: the returned token or the
thrown error, the number of token-refresh HTTP calls made, and the
(accessToken, expiry) pair persisted to the users row, if any. -/
structure TokenOutcome where
  result : Except String String
  refreshCalls : Nat
  persisted : Option (String × Int)
deriving DecidableEq, Repr

/-- getValidAccessToken (googleSearchConsole.ts lines 133-163).  The cache
condition mirrors the source literally:
"user.googleTokenExpiry && user.googleAccessToken && user.googleTokenExpiry > now",
where the first two conjuncts are JavaScript truthiness tests. -/
def getValidAccessToken (env : TokenEnv) : TokenOutcome :=
  if env.dbAvailable = false then
    ⟨.error "Database not available", 0, none⟩
  else
    match env.user with
    | none => ⟨.error "User not connected to Google", 0, none⟩
    | some user =>
      if strTruthy user.googleRefreshToken = false then
        ⟨.error "User not connected to Google", 0, none⟩
      else
        let cacheHit : Bool :=
          match user.googleTokenExpiry with
          | some t => strTruthy user.googleAccessToken && decide (env.now < t)
          | none => false
        if cacheHit then
          ⟨.ok (user.googleAccessToken.getD ""), 0, none⟩
        else
          match env.refresh (user.googleRefreshToken.getD "") with
          | .error e => ⟨.error e, 1, none⟩
          | .ok tok =>
            ⟨.ok tok.access_token, 1,
              some (tok.access_token, env.now + tok.expires_in * 1000)⟩

/-- C2 counterexample input: a stored credential whose refresh token and
access token are both non-null, whose access token is the empty string, and
whose expiry (1000) is strictly after now (0). -/
def c2User : UserRow := ⟨some "refresh-tok", some "", some 1000⟩

/-- C2 counterexample environment: database available and the refresh
endpoint answering successfully. -/
def c2Env : TokenEnv :=
  { dbAvailable := true
    user := some c2User
    now := 0
    refresh := fun _ => .ok ⟨"fresh-tok", 3600⟩ }

/-- C2 is false as stated: c2User has a non-null refresh token, a non-null
access token (the empty string) and an expiry strictly after now, yet
getValidAccessToken performs a refresh network call, persists a new row and
does not return the stored access token, because the source tests JavaScript
truthiness ("if (... user.googleAccessToken ...)") and the empty string is
falsy. -/
theorem c2_counterexample :
    c2User.googleRefreshToken = some "refresh-tok" ∧
    c2User.googleAccessToken = some "" ∧
    c2User.googleTokenExpiry = some 1000 ∧
    c2Env.now < 1000 ∧
    (getValidAccessToken c2Env).refreshCalls = 1 ∧
    (getValidAccessToken c2Env).result ≠ .ok "" ∧
    (getValidAccessToken c2Env).persisted ≠ none := by
  refine ⟨rfl, rfl, rfl, by decide, ?_, ?_, ?_⟩ <;> decide

theorem getValidAccessToken_cacheHit (env : TokenEnv) (u : UserRow) (r a : String) (t : Int)
    (hdb : env.dbAvailable = true)
    (hu : env.user = some u)
    (hr : u.googleRefreshToken = some r) (hrne : r ≠ "")
    (ha : u.googleAccessToken = some a) (hane : a ≠ "")
    (ht : u.googleTokenExpiry = some t) (hfresh : env.now < t) :
    getValidAccessToken env = ⟨.ok a, 0, none⟩ := by
  simp only [getValidAccessToken, hdb, hu, hr, ha, ht, strTruthy]
  simp [hrne, hane, hfresh]

/-- C2 amended: for every user whose stored credential has a non-null,
non-empty refresh token, a non-null, non-empty access token, and an expiry
strictly after now, getValidAccessToken returns the stored access token,
performs no network call and persists nothing. -/
theorem c2_cache_hit (env : TokenEnv) (u : UserRow) (r a : String) (t : Int)
    (hdb : env.dbAvailable = true)
    (hu : env.user = some u)
    (hr : u.googleRefreshToken = some r) (hrne : r ≠ "")
    (ha : u.googleAccessToken = some a) (hane : a ≠ "")
    (ht : u.googleTokenExpiry = some t) (hfresh : env.now < t) :
    getValidAccessToken env = ⟨.ok a, 0, none⟩ :=
  getValidAccessToken_cacheHit env u r a t hdb hu hr hrne ha hane ht hfresh

/-- Witness for c2_cache_hit at a concrete fresh credential. -/
theorem c2_cache_hit_witness :
    getValidAccessToken
        ⟨true, some ⟨some "r", some "a", some 50⟩, 10, fun _ => .error "unused"⟩ =
      ⟨.ok "a", 0, none⟩ :=
  c2_cache_hit _ ⟨some "r", some "a", some 50⟩ "r" "a" 50
    rfl rfl rfl (by decide) rfl (by decide) rfl (by decide)

/-- C3 counterexample input: a credential whose refresh token is non-null
but empty, with no access token at all. -/
def c3Env : TokenEnv :=
  { dbAvailable := true
    user := some ⟨some "", none, none⟩
    now := 0
    refresh := fun _ => .ok ⟨"fresh-tok", 3600⟩ }

/-- C3 is false as stated: the credential of c3Env has a non-null refresh
token (the empty string) and an absent access token, so the claim requires
exactly one token-refresh call returning a new token; the source instead
tests truthiness of the refresh token ("!user.googleRefreshToken"), makes
zero refresh calls and throws the not-connected error. -/
theorem c3_counterexample :
    (c3Env.user.map UserRow.googleRefreshToken) = some (some "") ∧
    (c3Env.user.map UserRow.googleAccessToken) = some none ∧
    (getValidAccessToken c3Env).refreshCalls = 0 ∧
    (getValidAccessToken c3Env).result = .error "User not connected to Google" := by
  refine ⟨rfl, rfl, ?_, ?_⟩ <;> decide

/-- C3 amended: (1) for every user whose credential has a non-null,
non-empty refresh token but whose access token is absent, or expiry absent,
or expiry not strictly in the future, getValidAccessToken performs exactly
one token-refresh call, and on success persists the new access token with
expiry = now plus the returned lifetime and returns the new token (on refresh
failure the error propagates after that single call); (2) when no users row
exists, or the stored refresh token is NULL, it fails with the not-connected
error and zero refresh calls. -/
theorem c3_refresh_path :
    (∀ (env : TokenEnv) (u : UserRow) (r : String),
      env.dbAvailable = true →
      env.user = some u →
      u.googleRefreshToken = some r → r ≠ "" →
      (u.googleAccessToken = none ∨ u.googleAccessToken = some "" ∨
        u.googleTokenExpiry = none ∨
        (∀ t : Int, u.googleTokenExpiry = some t → t ≤ env.now)) →
      (getValidAccessToken env).refreshCalls = 1 ∧
      (∀ tok : TokenResponse, env.refresh r = .ok tok →
        getValidAccessToken env =
          ⟨.ok tok.access_token, 1,
            some (tok.access_token, env.now + tok.expires_in * 1000)⟩) ∧
      (∀ e : String, env.refresh r = .error e →
        getValidAccessToken env = ⟨.error e, 1, none⟩)) ∧
    (∀ env : TokenEnv,
      env.dbAvailable = true →
      (env.user = none ∨ ∃ u : UserRow, env.user = some u ∧ u.googleRefreshToken = none) →
      getValidAccessToken env = ⟨.error "User not connected to Google", 0, none⟩) := by
  constructor
  · intro env u r hdb hu hr hrne hstale
    have hch : (match u.googleTokenExpiry with
        | some t => strTruthy u.googleAccessToken && decide (env.now < t)
        | none => false) = false := by
      rcases hstale with h | h | h | h
      · cases hx : u.googleTokenExpiry with
        | none => simp
        | some t => simp [h, strTruthy]
      · cases hx : u.googleTokenExpiry with
        | none => simp
        | some t => simp [h, strTruthy]
      · simp [h]
      · cases hx : u.googleTokenExpiry with
        | none => simp
        | some t =>
          have := h t hx
          simp only [Bool.and_eq_false_iff]
          right
          simpa using not_lt.mpr this
    have hrt : strTruthy u.googleRefreshToken = true := by
      simp [hr, strTruthy, hrne]
    refine ⟨?_, ?_, ?_⟩
    · simp only [getValidAccessToken, hdb, hu, hrt, hch]
      cases hres : env.refresh (u.googleRefreshToken.getD "") <;> simp [hres]
    · intro tok htok
      have : u.googleRefreshToken.getD "" = r := by simp [hr]
      simp only [getValidAccessToken, hdb, hu, hrt, hch, this, htok]
      simp
    · intro e herr
      have : u.googleRefreshToken.getD "" = r := by simp [hr]
      simp only [getValidAccessToken, hdb, hu, hrt, hch, this, herr]
      simp
  · intro env hdb hnc
    rcases hnc with h | ⟨u, hu, hr⟩
    · simp [getValidAccessToken, hdb, h]
    · simp [getValidAccessToken, hdb, hu, hr, strTruthy]

/-- Witness for c3_refresh_path: an expired credential refreshes once and
persists the new expiry, and a NULL refresh token fails not-connected. -/
theorem c3_refresh_path_witness :
    getValidAccessToken
        ⟨true, some ⟨some "r", some "old", some 5⟩, 10, fun _ => .ok ⟨"new", 60⟩⟩ =
      ⟨.ok "new", 1, some ("new", 10 + 60 * 1000)⟩ ∧
    getValidAccessToken ⟨true, some ⟨none, some "old", some 99999⟩, 10, fun _ => .ok ⟨"new", 60⟩⟩ =
      ⟨.error "User not connected to Google", 0, none⟩ := by
  constructor
  · exact (c3_refresh_path.1 ⟨true, some ⟨some "r", some "old", some 5⟩, 10,
      fun _ => .ok ⟨"new", 60⟩⟩ ⟨some "r", some "old", some 5⟩ "r"
      rfl rfl rfl (by decide)
      (Or.inr (Or.inr (Or.inr (by intro t ht; cases ht; decide))))).2.1
      ⟨"new", 60⟩ rfl
  · exact c3_refresh_path.2 _ rfl (Or.inr ⟨⟨none, some "old", some 99999⟩, rfl, rfl⟩)

/-! ## Scheduler (src/server/services/scheduler.ts) -/

/-- One row of the tracked_domains table as read by the scheduler. -/
structure DomainRow where
  id : Nat
  userId : Nat
  domain : String
deriving DecidableEq, Repr

/-- Environment of one runDailyUpdate call: the awaited getDb (which can
reject, or resolve to null = false / a handle = true), the awaited
db.select().from(trackedDomains) (which can reject), and the outcome of the
awaited this.updatePageSpeedData call for each domain. -/
structure SchedEnv where
  getDb : Except String Bool
  selectDomains : Except String (List DomainRow)
  process : DomainRow → Except String Unit

/-- The sequential for-of loop of runDailyUpdate with its per-domain
try/catch: each domain is attempted, and both on fulfilment and on rejection
of updatePageSpeedData the loop records the domain and proceeds, the error
being only logged. -/
def domainLoop (process : DomainRow → Except String Unit) :
    List DomainRow → List (Nat × Option String)
  | [] => []
  | d :: ds =>
    match process d with
    | .ok _ => (d.id, none) :: domainLoop process ds
    | .error e => (d.id, some e) :: domainLoop process ds

/-- Observable outcome of runDailyUpdate: the domains attempted (ids in
order, paired with the per-domain error caught, if any) and the exception
escaping to the caller, if any. -/
structure RunTrace where
  attempted : List (Nat × Option String)
  escaped : Option String
deriving DecidableEq, Repr

/-- The try block of runDailyUpdate (scheduler.ts lines 57-83): resolve the
database (an early return when it is null), select all tracked domains, then
run the per-domain loop. -/
def runDailyUpdateBody (env : SchedEnv) : Except String (List (Nat × Option String)) := do
  let hasDb ← env.getDb
  if hasDb = false then
    return []
  let domains ← env.selectDomains
  return domainLoop env.process domains

/-- SchedulerService.runDailyUpdate (scheduler.ts lines 54-86): the whole
body is wrapped in a try/catch whose catch only logs, so no exception ever
escapes. -/
def runDailyUpdate (env : SchedEnv) : RunTrace :=
  match runDailyUpdateBody env with
  | .ok entries => ⟨entries, none⟩
  | .error _ => ⟨[], none⟩

theorem domainLoop_ids (process : DomainRow → Except String Unit) (ds : List DomainRow) :
    (domainLoop process ds).map Prod.fst = ds.map DomainRow.id := by
  induction ds with
  | nil => rfl
  | cons d ds ih =>
    cases h : process d <;> simp [domainLoop, h, ih]

/-- C1: when the database resolves and the domain select succeeds,
runDailyUpdate completes without an exception escaping, and the per-domain
page-performance update is attempted for every selected domain in order,
whatever the per-domain outcomes are — in particular a failing domain never
prevents later domains from being attempted. -/
theorem c1_runDailyUpdate_contains_failures (env : SchedEnv) (ds : List DomainRow)
    (hdb : env.getDb = .ok true)
    (hsel : env.selectDomains = .ok ds) :
    (runDailyUpdate env).escaped = none ∧
    (runDailyUpdate env).attempted.map Prod.fst = ds.map DomainRow.id := by
  have hbody : runDailyUpdateBody env = .ok (domainLoop env.process ds) := by
    simp [runDailyUpdateBody, hdb, hsel, bind, Except.bind, pure, Except.pure]
  constructor
  · simp [runDailyUpdate, hbody]
  · simp [runDailyUpdate, hbody, domainLoop_ids]

/-- C1 witness environment: three domains, the middle one rejecting. -/
def c1Env : SchedEnv :=
  { getDb := .ok true
    selectDomains := .ok [⟨1, 7, "a.com"⟩, ⟨2, 7, "b.com"⟩, ⟨3, 7, "c.com"⟩]
    process := fun d => if d.id = 2 then .error "boom" else .ok () }

/-- Witness for C1: with domain 2 of 3 throwing, nothing escapes and all
three domains are attempted in order. -/
theorem c1_witness :
    c1Env.getDb = .ok true ∧
    c1Env.selectDomains = .ok [⟨1, 7, "a.com"⟩, ⟨2, 7, "b.com"⟩, ⟨3, 7, "c.com"⟩] ∧
    (runDailyUpdate c1Env).escaped = none ∧
    (runDailyUpdate c1Env).attempted.map Prod.fst = [1, 2, 3] := by
  have h := c1_runDailyUpdate_contains_failures c1Env
    [⟨1, 7, "a.com"⟩, ⟨2, 7, "b.com"⟩, ⟨3, 7, "c.com"⟩] rfl rfl
  exact ⟨rfl, rfl, h.1, by rw [h.2]; rfl⟩

/-- Kind of a registered Node timer: the one-shot warm-up setTimeout or the
recurring setInterval. -/
inductive TimerKind
  | oneShot
  | recurring
deriving DecidableEq, Repr

/-- A timer registered with the runtime; every timer of this subsystem fires
runDailyUpdate.  delayMs is the setTimeout delay or the setInterval period. -/
structure TimerRec where
  id : Nat
  kind : TimerKind
  delayMs : Nat
deriving DecidableEq, Repr

/-- Process-wide state of SchedulerService plus the runtime timer table:
the static isRunning flag and intervalId handle of the class, the set of
live timers, and the next fresh timer id the runtime will hand out. -/
structure SchedState where
  isRunning : Bool
  intervalId : Option Nat
  timers : List TimerRec
  nextId : Nat
deriving DecidableEq, Repr

/-- SchedulerService.start (scheduler.ts lines 19-37): a no-op when already
running; otherwise sets isRunning, registers the 5-minute one-shot warm-up
setTimeout (whose handle is discarded) and the 24-hour setInterval (whose
handle is stored in intervalId). -/
def SchedulerService.start (s : SchedState) : SchedState :=
  if s.isRunning then s
  else
    { isRunning := true
      intervalId := some (s.nextId + 1)
      timers := s.timers ++
        [⟨s.nextId, .oneShot, 5 * 60 * 1000⟩, ⟨s.nextId + 1, .recurring, 24 * 60 * 60 * 1000⟩]
      nextId := s.nextId + 2 }

/-- SchedulerService.stop (scheduler.ts lines 42-49): clearInterval on the
stored handle if present, null the handle, clear isRunning.  Nothing else is
cancelled. -/
def SchedulerService.stop (s : SchedState) : SchedState :=
  let s1 :=
    match s.intervalId with
    | some tid => { s with timers := s.timers.filter (fun t => t.id ≠ tid), intervalId := none }
    | none => s
  { s1 with isRunning := false }

/-- The pristine scheduler state: not running, no handle, no live timers. -/
def initialSched : SchedState := ⟨false, none, [], 0⟩

/-- C6 is false as stated: from the pristine state, start() then stop()
leaves the 5-minute one-shot warm-up timer registered — its setTimeout handle
is discarded by start() and stop() only clears the interval — so a future
scheduled fire of runDailyUpdate still occurs after stop() returns with no
later start(). -/
theorem c6_counterexample :
    (SchedulerService.stop (SchedulerService.start initialSched)).isRunning = false ∧
    (SchedulerService.stop (SchedulerService.start initialSched)).timers =
      [⟨0, .oneShot, 300000⟩] ∧
    (SchedulerService.stop (SchedulerService.start initialSched)).timers ≠ [] := by
  refine ⟨rfl, ?_, ?_⟩ <;> decide

/-- C6 amended: once stop() has returned and no later start() has been
called, no future fire of the recurring 24-hour run occurs — the interval
timer registered by start() is removed — and running is cleared; but the
one-shot warm-up scheduled by start() is not cancelled and remains
registered, so it may still fire runDailyUpdate once.  (stop() also cannot
interrupt a runDailyUpdate already in progress.) -/
theorem c6_stop_cancels_only_interval (s : SchedState)
    (hrun : s.isRunning = false)
    (hfresh : ∀ t ∈ s.timers, t.id < s.nextId) :
    (SchedulerService.stop (SchedulerService.start s)).isRunning = false ∧
    (SchedulerService.stop (SchedulerService.start s)).intervalId = none ∧
    (SchedulerService.stop (SchedulerService.start s)).timers =
      s.timers ++ [⟨s.nextId, .oneShot, 300000⟩] := by
  have hfilter :
      s.timers.filter (fun t => t.id ≠ s.nextId + 1) = s.timers :=
    List.filter_eq_self.mpr (fun t ht => by
      have := hfresh t ht
      simp only [ne_eq, decide_eq_true_eq]
      omega)
  refine ⟨rfl, ?_, ?_⟩ <;>
    simp [SchedulerService.start, SchedulerService.stop, hrun, List.filter_append, hfilter]
  intro a ha
  have := hfresh a ha
  omega

/-- Witness for c6_stop_cancels_only_interval at the pristine state. -/
theorem c6_stop_witness :
    initialSched.isRunning = false ∧
    (SchedulerService.stop (SchedulerService.start initialSched)).isRunning = false ∧
    (SchedulerService.stop (SchedulerService.start initialSched)).intervalId = none ∧
    (SchedulerService.stop (SchedulerService.start initialSched)).timers =
      initialSched.timers ++ [⟨0, .oneShot, 300000⟩] := by
  have h := c6_stop_cancels_only_interval initialSched rfl (by intro t ht; cases ht)
  exact ⟨rfl, h.1, h.2.1, h.2.2⟩

/-- Number of live recurring 24-hour timers. -/
def recurringCount (ts : List TimerRec) : Nat :=
  (ts.filter (fun t => t.kind == TimerKind.recurring && t.delayMs == 24 * 60 * 60 * 1000)).length

/-- C8: from a non-running state, calling start() twice registers exactly
one recurring 24-hour timer — the second call is a no-op because isRunning
is already set, so runDailyUpdate is never double-scheduled. -/
theorem c8_start_idempotent (s : SchedState) (hrun : s.isRunning = false) :
    SchedulerService.start (SchedulerService.start s) = SchedulerService.start s ∧
    recurringCount (SchedulerService.start (SchedulerService.start s)).timers =
      recurringCount s.timers + 1 := by
  have h1 : (SchedulerService.start s).isRunning = true := by
    simp [SchedulerService.start, hrun]
  have hnoop : ∀ s1 : SchedState, s1.isRunning = true → SchedulerService.start s1 = s1 := by
    intro s1 h
    simp [SchedulerService.start, h]
  have h2 : SchedulerService.start (SchedulerService.start s) = SchedulerService.start s :=
    hnoop _ h1
  refine ⟨h2, ?_⟩
  rw [h2]
  simp [SchedulerService.start, hrun, recurringCount, List.filter_append]

/-- Witness for C8 at the pristine state: two starts yield exactly one
recurring timer. -/
theorem c8_witness :
    initialSched.isRunning = false ∧
    SchedulerService.start (SchedulerService.start initialSched) =
      SchedulerService.start initialSched ∧
    recurringCount (SchedulerService.start (SchedulerService.start initialSched)).timers = 1 := by
  have h := c8_start_idempotent initialSched rfl
  exact ⟨rfl, h.1, by rw [h.2]; rfl⟩

/-! ## PageSpeed Insights (src/server/services/pageSpeedInsights.ts) -/

/-- Math.round of JavaScript: round half toward positive infinity. -/
def mathRound (q : ℚ) : ℤ := ⌊q + 1 / 2⌋

/-- The flat metrics record returned by fetchPageSpeedInsights (the opaque
rawData payload is not modelled).  The four category scores are produced
upstream by Math.round((score ?? 0) * 100) and the timings by Math.round, so
they are integral in practice; the claims state their ranges as hypotheses. -/
structure PageSpeedMetrics where
  performanceScore : ℚ
  accessibilityScore : ℚ
  bestPracticesScore : ℚ
  seoScore : ℚ
  lcp : ℚ
  fid : ℚ
  cls : ℚ
  ttfb : ℚ
  fcp : ℚ
  speedIndex : ℚ
  tbt : ℚ
deriving DecidableEq, Repr

/-- The five integer fields returned by calculateAIReadabilityScore. -/
structure AIReadabilityScore where
  overall : ℤ
  semanticHTML : ℤ
  schemaOrg : ℤ
  contentClarity : ℤ
  technicalSEO : ℤ
deriving DecidableEq, Repr

/-- LCP bucket of the technicalSEO computation (pageSpeedInsights.ts line
235): at most 2500 scores 100, at most 4000 scores 75, else 50. -/
def lcpBucket (lcp : ℚ) : ℚ := if lcp ≤ 2500 then 100 else if lcp ≤ 4000 then 75 else 50

/-- CLS bucket (line 236): at most 100 scores 100, at most 250 scores 75,
else 50 (the stored cls column is the layout-shift score times 1000). -/
def clsBucket (cls : ℚ) : ℚ := if cls ≤ 100 then 100 else if cls ≤ 250 then 75 else 50

/-- FID bucket (line 237): at most 100 scores 100, at most 300 scores 75,
else 50. -/
def fidBucket (fid : ℚ) : ℚ := if fid ≤ 100 then 100 else if fid ≤ 300 then 75 else 50

/-- calculateAIReadabilityScore (pageSpeedInsights.ts lines 208-256), with
the JavaScript decimal weights written as exact rationals. -/
def calculateAIReadabilityScore (m : PageSpeedMetrics) : AIReadabilityScore :=
  let semanticHTML : ℤ :=
    min 100 (mathRound (m.accessibilityScore * (6 / 10) + m.seoScore * (4 / 10)))
  let schemaOrg : ℤ :=
    min 100 (mathRound (m.seoScore * (7 / 10) + m.bestPracticesScore * (3 / 10)))
  let contentClarity : ℤ :=
    min 100 (mathRound (m.accessibilityScore * (5 / 10) + m.performanceScore * (3 / 10) +
      m.seoScore * (2 / 10)))
  let technicalSEO : ℤ :=
    mathRound ((lcpBucket m.lcp + clsBucket m.cls + fidBucket m.fid) / 3)
  let overall : ℤ :=
    mathRound ((semanticHTML : ℚ) * (3 / 10) + (schemaOrg : ℚ) * (25 / 100) +
      (contentClarity : ℚ) * (25 / 100) + (technicalSEO : ℚ) * (2 / 10))
  ⟨overall, semanticHTML, schemaOrg, contentClarity, technicalSEO⟩

theorem mathRound_nonneg {q : ℚ} (h : 0 ≤ q) : 0 ≤ mathRound q := by
  unfold mathRound
  have : (0 : ℚ) ≤ q + 1 / 2 := by linarith
  exact Int.floor_nonneg.mpr this

theorem mathRound_le {q : ℚ} {c : ℤ} (h : q ≤ (c : ℚ)) : mathRound q ≤ c := by
  unfold mathRound
  have : q + 1 / 2 < (c : ℚ) + 1 := by linarith
  have := Int.floor_lt.mpr (by push_cast; linarith : q + 1 / 2 < ((c + 1 : ℤ) : ℚ))
  omega

theorem overall_weighted_bounds (a b c d : ℤ)
    (ha0 : 0 ≤ a) (ha1 : a ≤ 100) (hb0 : 0 ≤ b) (hb1 : b ≤ 100)
    (hc0 : 0 ≤ c) (hc1 : c ≤ 100) (hd0 : 0 ≤ d) (hd1 : d ≤ 100) :
    0 ≤ mathRound ((a : ℚ) * (3 / 10) + (b : ℚ) * (25 / 100) +
        (c : ℚ) * (25 / 100) + (d : ℚ) * (2 / 10)) ∧
    mathRound ((a : ℚ) * (3 / 10) + (b : ℚ) * (25 / 100) +
        (c : ℚ) * (25 / 100) + (d : ℚ) * (2 / 10)) ≤ 100 := by
  have ca0 : (0 : ℚ) ≤ (a : ℚ) := by exact_mod_cast ha0
  have ca1 : (a : ℚ) ≤ 100 := by exact_mod_cast ha1
  have cb0 : (0 : ℚ) ≤ (b : ℚ) := by exact_mod_cast hb0
  have cb1 : (b : ℚ) ≤ 100 := by exact_mod_cast hb1
  have cc0 : (0 : ℚ) ≤ (c : ℚ) := by exact_mod_cast hc0
  have cc1 : (c : ℚ) ≤ 100 := by exact_mod_cast hc1
  have cd0 : (0 : ℚ) ≤ (d : ℚ) := by exact_mod_cast hd0
  have cd1 : (d : ℚ) ≤ 100 := by exact_mod_cast hd1
  constructor
  · exact mathRound_nonneg (by linarith)
  · exact mathRound_le (by push_cast; linarith)

theorem lcpBucket_bounds (x : ℚ) : 50 ≤ lcpBucket x ∧ lcpBucket x ≤ 100 := by
  unfold lcpBucket
  split <;> [skip; split] <;> norm_num

theorem clsBucket_bounds (x : ℚ) : 50 ≤ clsBucket x ∧ clsBucket x ≤ 100 := by
  unfold clsBucket
  split <;> [skip; split] <;> norm_num

theorem fidBucket_bounds (x : ℚ) : 50 ≤ fidBucket x ∧ fidBucket x ≤ 100 := by
  unfold fidBucket
  split <;> [skip; split] <;> norm_num

/-- C9: for category scores in [0,100] and non-negative lcp, cls, fid, every
field of calculateAIReadabilityScore is in [0,100] (the fields are integers
by construction, having type ℤ in this embedding); technicalSEO is the
rounded mean of the three bucket values; and the bucket boundaries are
inclusive on the lower bucket: lcp 2500 scores 100 while 2501 scores 75, cls
100 scores 100 while 101 scores 75, fid 100 scores 100 while 101 scores 75. -/
theorem c9_ai_readability_bounds (m : PageSpeedMetrics)
    (hp0 : 0 ≤ m.performanceScore) (hp1 : m.performanceScore ≤ 100)
    (ha0 : 0 ≤ m.accessibilityScore) (ha1 : m.accessibilityScore ≤ 100)
    (hb0 : 0 ≤ m.bestPracticesScore) (hb1 : m.bestPracticesScore ≤ 100)
    (hs0 : 0 ≤ m.seoScore) (hs1 : m.seoScore ≤ 100)
    (hl : 0 ≤ m.lcp) (hc : 0 ≤ m.cls) (hf : 0 ≤ m.fid) :
    (0 ≤ (calculateAIReadabilityScore m).semanticHTML ∧
      (calculateAIReadabilityScore m).semanticHTML ≤ 100) ∧
    (0 ≤ (calculateAIReadabilityScore m).schemaOrg ∧
      (calculateAIReadabilityScore m).schemaOrg ≤ 100) ∧
    (0 ≤ (calculateAIReadabilityScore m).contentClarity ∧
      (calculateAIReadabilityScore m).contentClarity ≤ 100) ∧
    (0 ≤ (calculateAIReadabilityScore m).technicalSEO ∧
      (calculateAIReadabilityScore m).technicalSEO ≤ 100) ∧
    (0 ≤ (calculateAIReadabilityScore m).overall ∧
      (calculateAIReadabilityScore m).overall ≤ 100) ∧
    (calculateAIReadabilityScore m).technicalSEO =
      mathRound ((lcpBucket m.lcp + clsBucket m.cls + fidBucket m.fid) / 3) ∧
    lcpBucket 2500 = 100 ∧ lcpBucket 2501 = 75 ∧
    clsBucket 100 = 100 ∧ clsBucket 101 = 75 ∧
    fidBucket 100 = 100 ∧ fidBucket 101 = 75 := by
  have hA0 : (0 : ℤ) ≤
      min 100 (mathRound (m.accessibilityScore * (6 / 10) + m.seoScore * (4 / 10))) :=
    le_min (by norm_num) (mathRound_nonneg (by linarith))
  have hA1 : min 100 (mathRound (m.accessibilityScore * (6 / 10) + m.seoScore * (4 / 10))) ≤
      100 := min_le_left _ _
  have hB0 : (0 : ℤ) ≤
      min 100 (mathRound (m.seoScore * (7 / 10) + m.bestPracticesScore * (3 / 10))) :=
    le_min (by norm_num) (mathRound_nonneg (by linarith))
  have hB1 : min 100 (mathRound (m.seoScore * (7 / 10) + m.bestPracticesScore * (3 / 10))) ≤
      100 := min_le_left _ _
  have hC0 : (0 : ℤ) ≤
      min 100 (mathRound (m.accessibilityScore * (5 / 10) + m.performanceScore * (3 / 10) +
        m.seoScore * (2 / 10))) :=
    le_min (by norm_num) (mathRound_nonneg (by linarith))
  have hC1 : min 100 (mathRound (m.accessibilityScore * (5 / 10) + m.performanceScore * (3 / 10) +
      m.seoScore * (2 / 10))) ≤ 100 := min_le_left _ _
  have hlb := lcpBucket_bounds m.lcp
  have hcb := clsBucket_bounds m.cls
  have hfb := fidBucket_bounds m.fid
  have hT0 : (0 : ℤ) ≤
      mathRound ((lcpBucket m.lcp + clsBucket m.cls + fidBucket m.fid) / 3) :=
    mathRound_nonneg (by linarith)
  have hT1 : mathRound ((lcpBucket m.lcp + clsBucket m.cls + fidBucket m.fid) / 3) ≤ 100 :=
    mathRound_le (by push_cast; linarith)
  have hover := overall_weighted_bounds _ _ _ _ hA0 hA1 hB0 hB1 hC0 hC1 hT0 hT1
  refine ⟨?_, ?_, ?_, ?_, ?_, rfl, ?_, ?_, ?_, ?_, ?_, ?_⟩
  · exact ⟨hA0, hA1⟩
  · exact ⟨hB0, hB1⟩
  · exact ⟨hC0, hC1⟩
  · exact ⟨hT0, hT1⟩
  · exact hover
  all_goals norm_num [lcpBucket, clsBucket, fidBucket]

/-- Witness metrics for C9. -/
def c9Metrics : PageSpeedMetrics :=
  ⟨80, 90, 70, 85, 3000, 120, 50, 200, 1500, 3200, 150⟩

/-- Witness for C9 at concrete metrics. -/
theorem c9_witness :
    ((0 : ℚ) ≤ 80 ∧ (80 : ℚ) ≤ 100) ∧
    ((0 ≤ (calculateAIReadabilityScore c9Metrics).semanticHTML ∧
      (calculateAIReadabilityScore c9Metrics).semanticHTML ≤ 100) ∧
    (0 ≤ (calculateAIReadabilityScore c9Metrics).schemaOrg ∧
      (calculateAIReadabilityScore c9Metrics).schemaOrg ≤ 100) ∧
    (0 ≤ (calculateAIReadabilityScore c9Metrics).contentClarity ∧
      (calculateAIReadabilityScore c9Metrics).contentClarity ≤ 100) ∧
    (0 ≤ (calculateAIReadabilityScore c9Metrics).technicalSEO ∧
      (calculateAIReadabilityScore c9Metrics).technicalSEO ≤ 100) ∧
    (0 ≤ (calculateAIReadabilityScore c9Metrics).overall ∧
      (calculateAIReadabilityScore c9Metrics).overall ≤ 100) ∧
    (calculateAIReadabilityScore c9Metrics).technicalSEO =
      mathRound ((lcpBucket c9Metrics.lcp + clsBucket c9Metrics.cls +
        fidBucket c9Metrics.fid) / 3) ∧
    lcpBucket 2500 = 100 ∧ lcpBucket 2501 = 75 ∧
    clsBucket 100 = 100 ∧ clsBucket 101 = 75 ∧
    fidBucket 100 = 100 ∧ fidBucket 101 = 75) :=
  ⟨⟨by norm_num, by norm_num⟩,
    c9_ai_readability_bounds c9Metrics (by norm_num [c9Metrics]) (by norm_num [c9Metrics])
      (by norm_num [c9Metrics]) (by norm_num [c9Metrics]) (by norm_num [c9Metrics])
      (by norm_num [c9Metrics]) (by norm_num [c9Metrics]) (by norm_num [c9Metrics])
      (by norm_num [c9Metrics]) (by norm_num [c9Metrics]) (by norm_num [c9Metrics])⟩

/-- Device strategy of a PageSpeed analysis. -/
inductive Strategy
  | mobile
  | desktop
deriving DecidableEq, Repr

/-- One row inserted into pagespeed_history: the addressed domain, the url
column as written, and the metrics the numeric columns are copied from.
(analyzeAndSavePageSpeed persists every metric plus rawData, while the
scheduler's updatePageSpeedData omits fid, ttfb and rawData; the claims only
concern row counts and url values, so the row keeps the whole record.) -/
structure PsInsert where
  domainId : Nat
  url : String
  metrics : PageSpeedMetrics
deriving DecidableEq, Repr

/-- One row of tracked_domains as read by the sync flows. -/
structure TrackedDomainRow where
  id : Nat
  userId : Nat
  domain : String
  searchConsoleProperty : Option String
deriving DecidableEq, Repr

/-- Environment of the page-performance flows: whether getDb yields a
handle, the user's tracked-domains select (which can reject), and the
outcome of the external fetchPageSpeedInsights call per url and strategy. -/
structure PsEnv where
  dbAvailable : Bool
  listDomains : Except String (List TrackedDomainRow)
  fetchPS : String → Strategy → Except String PageSpeedMetrics

/-- The TypeScript string method startsWith, as a character-list prefix
test (computationally transparent, unlike the bundled byte-level one). -/
def strStartsWith (s pre : String) : Bool := pre.data.isPrefixOf s.data

/-- The root-url computation shared by updatePageSpeedData (scheduler.ts
line 93) and syncPageSpeedData (pageSpeedInsights.ts lines 180-182):
prepend https:// unless the stored domain already starts with http. -/
def rootUrl (domain : String) : String :=
  if strStartsWith domain "http" then domain else "https://" ++ domain

/-- analyzeAndSavePageSpeed (pageSpeedInsights.ts lines 125-154): resolve
the database (throwing when null), fetch the metrics with the default
mobile strategy (any rejection propagates), insert exactly one
pagespeed_history row for the given url, return the metrics. -/
def analyzeAndSavePageSpeed (env : PsEnv) (domainId : Nat) (url : String) :
    Except String (PageSpeedMetrics × List PsInsert) :=
  if env.dbAvailable = false then .error "Database not available"
  else
    match env.fetchPS url Strategy.mobile with
    | .error e => .error e
    | .ok m => .ok (m, [⟨domainId, url, m⟩])

/-- SchedulerService.updatePageSpeedData (scheduler.ts lines 91-147): fetch
the root url for both strategies, each rejection converted to null; when the
database is null return null with no inserts; otherwise insert one row per
non-null result, with the url suffixed by the strategy.  The whole body is
wrapped in try/catch, so the promise never rejects; the returned value is
the {mobile, desktop} pair, or null.  The second component is the list of
pagespeed_history rows inserted. -/
def updatePageSpeedData (env : PsEnv) (domain : String) (domainId : Nat) :
    Option (Option PageSpeedMetrics × Option PageSpeedMetrics) × List PsInsert :=
  let url := rootUrl domain
  let mobileResult := (env.fetchPS url Strategy.mobile).toOption
  let desktopResult := (env.fetchPS url Strategy.desktop).toOption
  if env.dbAvailable = false then (none, [])
  else
    let mobileRows :=
      match mobileResult with
      | some m => [(⟨domainId, url ++ " (mobile)", m⟩ : PsInsert)]
      | none => []
    let desktopRows :=
      match desktopResult with
      | some m => [(⟨domainId, url ++ " (desktop)", m⟩ : PsInsert)]
      | none => []
    (some (mobileResult, desktopResult), mobileRows ++ desktopRows)

/-- C7 counterexample metrics: what the external API reports for every
fetch in the counterexample environment. -/
def c7Metrics : PageSpeedMetrics := ⟨90, 90, 90, 90, 2000, 50, 40, 100, 900, 2500, 80⟩

/-- C7 counterexample environment: database available, every fetch
succeeding with c7Metrics. -/
def c7Env : PsEnv :=
  { dbAvailable := true
    listDomains := .ok []
    fetchPS := fun _ _ => .ok c7Metrics }

/-- C7 is false as stated: for the tracked domain "example.com" the
scheduler's per-domain update writes two pagespeed_history rows, with urls
"https://example.com (mobile)" and "https://example.com (desktop)", and no
row whose url is the root url itself — while analyzeAndSavePageSpeed on the
root url writes exactly one row carrying that url unchanged. -/
theorem c7_counterexample :
    (updatePageSpeedData c7Env "example.com" 1).2.length = 2 ∧
    (updatePageSpeedData c7Env "example.com" 1).2.map PsInsert.url =
      ["https://example.com (mobile)", "https://example.com (desktop)"] ∧
    ((updatePageSpeedData c7Env "example.com" 1).2.filter
      (fun r => r.url == "https://example.com")).length = 0 ∧
    analyzeAndSavePageSpeed c7Env 1 "https://example.com" =
      .ok (c7Metrics, [⟨1, "https://example.com", c7Metrics⟩]) := by
  refine ⟨?_, ?_, ?_, ?_⟩ <;> decide

/-- C7 amended: for every tracked domain it processes, runDailyUpdate's
per-domain update (SchedulerService.updatePageSpeedData) performs the
page-performance refresh on the domain's root URL for both the mobile and
the desktop strategy, writing one pagespeed_history row per successful
strategy — so two rows when both fetches succeed, with the url column
suffixed by " (mobile)" / " (desktop)" — rather than calling
analyzeAndSavePageSpeed, which on success writes exactly one row carrying
its url unchanged. -/
theorem c7_two_rows_per_domain (env : PsEnv) (domain : String) (domainId : Nat)
    (mm md : PageSpeedMetrics)
    (hdb : env.dbAvailable = true)
    (hm : env.fetchPS (rootUrl domain) Strategy.mobile = .ok mm)
    (hd : env.fetchPS (rootUrl domain) Strategy.desktop = .ok md) :
    updatePageSpeedData env domain domainId =
      (some (some mm, some md),
        [⟨domainId, rootUrl domain ++ " (mobile)", mm⟩,
          ⟨domainId, rootUrl domain ++ " (desktop)", md⟩]) ∧
    analyzeAndSavePageSpeed env domainId (rootUrl domain) =
      .ok (mm, [⟨domainId, rootUrl domain, mm⟩]) := by
  constructor
  · simp [updatePageSpeedData, hdb, hm, hd, Except.toOption]
  · simp [analyzeAndSavePageSpeed, hdb, hm]

/-- Witness for c7_two_rows_per_domain at the concrete environment. -/
theorem c7_witness :
    c7Env.dbAvailable = true ∧
    c7Env.fetchPS (rootUrl "example.com") Strategy.mobile = .ok c7Metrics ∧
    (updatePageSpeedData c7Env "example.com" 1 =
      (some (some c7Metrics, some c7Metrics),
        [⟨1, rootUrl "example.com" ++ " (mobile)", c7Metrics⟩,
          ⟨1, rootUrl "example.com" ++ " (desktop)", c7Metrics⟩]) ∧
    analyzeAndSavePageSpeed c7Env 1 (rootUrl "example.com") =
      .ok (c7Metrics, [⟨1, rootUrl "example.com", c7Metrics⟩])) :=
  ⟨rfl, rfl, c7_two_rows_per_domain c7Env "example.com" 1 c7Metrics c7Metrics rfl rfl rfl⟩

/-- The sequential for-of loop of syncPageSpeedData (pageSpeedInsights.ts
lines 177-192): per-domain try/catch around analyzeAndSavePageSpeed on the
root url; on fulfilment the urlsAnalyzed counter is incremented and the row
recorded, on rejection the error is only logged.  (The fixed 1000 ms
politeness delay between domains has no observable effect modelled here.) -/
def psLoop (env : PsEnv) : List TrackedDomainRow → Nat × List PsInsert
  | [] => (0, [])
  | d :: ds =>
    let rest := psLoop env ds
    match analyzeAndSavePageSpeed env d.id (rootUrl d.domain) with
    | .ok (_, ins) => (rest.1 + 1, ins ++ rest.2)
    | .error _ => rest

/-- The result shape of syncPageSpeedData. -/
structure SyncPsResult where
  success : Bool
  urlsAnalyzed : Nat
  error : Option String
deriving DecidableEq, Repr

/-- syncPageSpeedData (pageSpeedInsights.ts lines 159-203): the whole body
in a try/catch converting any pre-loop failure into a
{success:false, urlsAnalyzed:0, error:String(error)} result; zero tracked
domains short-circuits to success.  Returns the result together with the
pagespeed_history rows inserted. -/
def syncPageSpeedData (env : PsEnv) : SyncPsResult × List PsInsert :=
  if env.dbAvailable = false then
    (⟨false, 0, some (jsString "Database not available")⟩, [])
  else
    match env.listDomains with
    | .error e => (⟨false, 0, some (jsString e)⟩, [])
    | .ok domains =>
      if domains.isEmpty then (⟨true, 0, none⟩, [])
      else
        let r := psLoop env domains
        (⟨true, r.1, none⟩, r.2)

/-! ## Search Console sync (src/server/services/googleSearchConsole.ts, lines 268-385) -/

/-- Aggregate site performance returned by fetchSitePerformance (missing
fields already defaulted to 0 by that adapter). -/
structure SitePerformance where
  clicks : ℚ
  impressions : ℚ
  ctr : ℚ
  position : ℚ
deriving DecidableEq, Repr

/-- One query-dimension row of the search-analytics response. -/
structure AnalyticsRow where
  keys : List String
  clicks : ℚ
  impressions : ℚ
  ctr : ℚ
  position : ℚ
deriving DecidableEq, Repr

/-- One row of the tracked_keywords table. -/
structure TrackedKeywordRow where
  id : Nat
  userId : Nat
  domainId : Nat
  keyword : String
deriving DecidableEq, Repr

/-- One domain_history row as inserted by the sync (the date column and the
String() conversions of position and ctr are not modelled). -/
structure DomainHistoryRow where
  domainId : Nat
  totalClicks : ℚ
  totalImpressions : ℚ
  avgPosition : ℚ
  avgCtr : ℚ
deriving DecidableEq, Repr

/-- One keyword_history row as inserted by the sync. -/
structure KeywordHistoryRow where
  keywordId : Nat
  position : ℚ
  clicks : ℚ
  impressions : ℚ
  ctr : ℚ
deriving DecidableEq, Repr

/-- Environment of one syncSearchConsoleData call: the sync's own getDb
outcome, the environment of the inner getValidAccessToken call, the user's
tracked-domains select, the two analytics endpoints keyed by the site
property (the search-analytics response's rows field is optional), the
pre-sync contents of tracked_keywords relevant to the user's domains, and
the next id the storage assigns to an inserted tracked_keywords row. -/
structure GscEnv where
  dbAvailable : Bool
  token : TokenEnv
  listDomains : Except String (List TrackedDomainRow)
  fetchSitePerformance : String → Except String SitePerformance
  fetchSearchAnalytics : String → Except String (Option (List AnalyticsRow))
  keywords0 : List TrackedKeywordRow
  nextKeywordId : Nat

/-- Application-level keyword-upsert state: the current tracked_keywords
table, the next fresh row id, and the rows this sync has inserted so far. -/
structure KwState where
  table : List TrackedKeywordRow
  nextId : Nat
  inserted : List TrackedKeywordRow
deriving DecidableEq, Repr

/-- The select of googleSearchConsole.ts lines 337-342: first
tracked_keywords row with the given (domainId, keyword) pair (limit 1). -/
def findKeyword (table : List TrackedKeywordRow) (domainId : Nat) (kw : String) :
    Option TrackedKeywordRow :=
  table.find? (fun k => k.domainId == domainId && k.keyword == kw)

/-- The find-or-create step of googleSearchConsole.ts lines 337-355: reuse
the id of an existing (domainId, keyword) row, or insert a new row
attributed to the given user and use its fresh id. -/
def upsertKeyword (userId domainId : Nat) (kw : String) (st : KwState) : Nat × KwState :=
  match findKeyword st.table domainId kw with
  | some k => (k.id, st)
  | none =>
    let row : TrackedKeywordRow := ⟨st.nextId, userId, domainId, kw⟩
    (st.nextId, ⟨st.table ++ [row], st.nextId + 1, st.inserted ++ [row]⟩)

/-- The per-row keyword loop of googleSearchConsole.ts lines 333-368: for
each analytics row take keys[0] (defaulted to the empty string when absent),
resolve the tracked keyword, and append one keyword_history row carrying
the resolved id. -/
def keywordLoop (userId domainId : Nat) :
    List AnalyticsRow → KwState → KwState × List KeywordHistoryRow
  | [], st => (st, [])
  | row :: rest, st =>
    let kw := row.keys.headD ""
    let r1 := upsertKeyword userId domainId kw st
    let r2 := keywordLoop userId domainId rest r1.2
    (r2.1, ⟨r1.1, row.position, row.clicks, row.impressions, row.ctr⟩ :: r2.2)

/-- Mutable trace of the domain loop of syncSearchConsoleData: the keyword
table state, both counters, the history rows inserted, and the number of
outgoing HTTP requests (refresh plus analytics fetches). -/
structure ScSyncState where
  kw : KwState
  domainsUpdated : Nat
  keywordsUpdated : Nat
  domainHist : List DomainHistoryRow
  keywordHist : List KeywordHistoryRow
  networkCalls : Nat
deriving DecidableEq, Repr

/-- One iteration of the domain loop (googleSearchConsole.ts lines 298-373):
skip domains whose searchConsoleProperty is NULL or empty (JavaScript
falsiness of the continue guard); otherwise fetch site performance (on
rejection the per-domain catch logs and moves on), insert one domain_history
row and bump domainsUpdated, then fetch keyword rows (rejection caught the
same way; an absent rows field skips the keyword loop), run the keyword loop
and bump keywordsUpdated once per row processed. -/
def processScDomain (env : GscEnv) (userId : Nat) (st : ScSyncState)
    (d : TrackedDomainRow) : ScSyncState :=
  if strTruthy d.searchConsoleProperty = false then st
  else
    let prop := d.searchConsoleProperty.getD ""
    match env.fetchSitePerformance prop with
    | .error _ => { st with networkCalls := st.networkCalls + 1 }
    | .ok perf =>
      let st1 := { st with
        networkCalls := st.networkCalls + 1
        domainHist := st.domainHist ++
          [(⟨d.id, perf.clicks, perf.impressions, perf.position, perf.ctr⟩ : DomainHistoryRow)]
        domainsUpdated := st.domainsUpdated + 1 }
      match env.fetchSearchAnalytics prop with
      | .error _ => { st1 with networkCalls := st1.networkCalls + 1 }
      | .ok none => { st1 with networkCalls := st1.networkCalls + 1 }
      | .ok (some rows) =>
        let r := keywordLoop userId d.id rows st1.kw
        { st1 with
          networkCalls := st1.networkCalls + 1
          kw := r.1
          keywordHist := st1.keywordHist ++ r.2
          keywordsUpdated := st1.keywordsUpdated + r.2.length }

/-- The result shape of syncSearchConsoleData. -/
structure SyncScResult where
  success : Bool
  domainsUpdated : Nat
  keywordsUpdated : Nat
  error : Option String
deriving DecidableEq, Repr

/-- The initial domain-loop trace of one syncSearchConsoleData call. -/
def initScState (env : GscEnv) : ScSyncState :=
  ⟨⟨env.keywords0, env.nextKeywordId, []⟩, 0, 0, [], [], 0⟩

/-- syncSearchConsoleData (googleSearchConsole.ts lines 268-385): the whole
body in a try/catch converting any pre-loop failure — its own null database,
a getValidAccessToken rejection, a failing domain select — into a
{success:false, 0, 0, error:String(error)} result; a user with zero tracked
domains short-circuits to success before any date computation or fetch. -/
def syncSearchConsoleData (env : GscEnv) (userId : Nat) : SyncScResult × ScSyncState :=
  if env.dbAvailable = false then
    (⟨false, 0, 0, some (jsString "Database not available")⟩, initScState env)
  else
    let tok := getValidAccessToken env.token
    let st0 := { initScState env with networkCalls := tok.refreshCalls }
    match tok.result with
    | .error e => (⟨false, 0, 0, some (jsString e)⟩, st0)
    | .ok _ =>
      match env.listDomains with
      | .error e => (⟨false, 0, 0, some (jsString e)⟩, st0)
      | .ok domains =>
        if domains.isEmpty then (⟨true, 0, 0, none⟩, st0)
        else
          let final := domains.foldl (processScDomain env userId) st0
          (⟨true, final.domainsUpdated, final.keywordsUpdated, none⟩, final)

/-- C4: neither sync function lets an exception escape — both are total
functions into their documented result shapes by construction (the outer
try/catch of each is part of the embedding) — and every failure occurring
before the per-domain loop (the sync's own database resolution, token
resolution, listing the tracked domains) is converted into the
{success:false, error:String(error)} result with zero counters. -/
theorem c4_preloop_failures_become_results :
    (∀ (env : GscEnv) (userId : Nat),
      env.dbAvailable = false →
      (syncSearchConsoleData env userId).1 =
        ⟨false, 0, 0, some (jsString "Database not available")⟩) ∧
    (∀ (env : GscEnv) (userId : Nat) (e : String),
      env.dbAvailable = true →
      (getValidAccessToken env.token).result = .error e →
      (syncSearchConsoleData env userId).1 = ⟨false, 0, 0, some (jsString e)⟩) ∧
    (∀ (env : GscEnv) (userId : Nat) (a e : String),
      env.dbAvailable = true →
      (getValidAccessToken env.token).result = .ok a →
      env.listDomains = .error e →
      (syncSearchConsoleData env userId).1 = ⟨false, 0, 0, some (jsString e)⟩) ∧
    (∀ env : PsEnv,
      env.dbAvailable = false →
      (syncPageSpeedData env).1 = ⟨false, 0, some (jsString "Database not available")⟩) ∧
    (∀ (env : PsEnv) (e : String),
      env.dbAvailable = true →
      env.listDomains = .error e →
      (syncPageSpeedData env).1 = ⟨false, 0, some (jsString e)⟩) := by
  refine ⟨?_, ?_, ?_, ?_, ?_⟩
  · intro env userId hdb
    simp [syncSearchConsoleData, hdb]
  · intro env userId e hdb htok
    simp [syncSearchConsoleData, hdb, htok]
  · intro env userId a e hdb htok hdom
    simp [syncSearchConsoleData, hdb, htok, hdom]
  · intro env hdb
    simp [syncPageSpeedData, hdb]
  · intro env e hdb hdom
    simp [syncPageSpeedData, hdb, hdom]

/-- C4 witness environments: a Search Console sync whose token refresh is
rejected, and a PageSpeed sync with the database unavailable. -/
def c4GscEnv : GscEnv :=
  { dbAvailable := true
    token := ⟨true, some ⟨some "r", none, none⟩, 0, fun _ => .error "refresh down"⟩
    listDomains := .ok []
    fetchSitePerformance := fun _ => .error "unused"
    fetchSearchAnalytics := fun _ => .error "unused"
    keywords0 := []
    nextKeywordId := 1 }

/-- C4 witness PageSpeed environment: database unavailable. -/
def c4PsEnv : PsEnv :=
  { dbAvailable := false
    listDomains := .ok []
    fetchPS := fun _ _ => .error "unused" }

/-- Witness for C4: the rejected refresh and the missing database both
surface as failure results with zero counters, not exceptions. -/
theorem c4_witness :
    c4GscEnv.dbAvailable = true ∧
    (getValidAccessToken c4GscEnv.token).result = .error "refresh down" ∧
    c4PsEnv.dbAvailable = false ∧
    (syncSearchConsoleData c4GscEnv 7).1 =
      ⟨false, 0, 0, some "Error: refresh down"⟩ ∧
    (syncPageSpeedData c4PsEnv).1 = ⟨false, 0, some "Error: Database not available"⟩ := by
  refine ⟨rfl, by decide, rfl, ?_, ?_⟩
  · exact c4_preloop_failures_become_results.2.1 c4GscEnv 7 "refresh down" rfl (by decide)
  · exact c4_preloop_failures_become_results.2.2.2.1 c4PsEnv rfl

/-- C5 counterexample environment 1: zero tracked domains, but the stored
credential has no refresh token at all. -/
def c5EnvNotConnected : GscEnv :=
  { dbAvailable := true
    token := ⟨true, some ⟨none, none, none⟩, 0, fun _ => .ok ⟨"t", 3600⟩⟩
    listDomains := .ok []
    fetchSitePerformance := fun _ => .error "unused"
    fetchSearchAnalytics := fun _ => .error "unused"
    keywords0 := []
    nextKeywordId := 1 }

/-- C5 counterexample environment 2: zero tracked domains, an expired
cached token, and a working refresh endpoint. -/
def c5EnvExpired : GscEnv :=
  { dbAvailable := true
    token := ⟨true, some ⟨some "r", some "old", some 5⟩, 10, fun _ => .ok ⟨"new", 3600⟩⟩
    listDomains := .ok []
    fetchSitePerformance := fun _ => .error "unused"
    fetchSearchAnalytics := fun _ => .error "unused"
    keywords0 := []
    nextKeywordId := 1 }

/-- C5 is false as stated: token resolution runs before the zero-domain
check, so a user with zero tracked domains and no refresh token gets a
{success:false} result instead of {success:true, 0, 0}, and a user with
zero tracked domains and an expired cached token triggers one refresh
network call instead of none. -/
theorem c5_counterexample :
    c5EnvNotConnected.listDomains = .ok [] ∧
    (syncSearchConsoleData c5EnvNotConnected 7).1 =
      ⟨false, 0, 0, some "Error: User not connected to Google"⟩ ∧
    c5EnvExpired.listDomains = .ok [] ∧
    (syncSearchConsoleData c5EnvExpired 7).1 = ⟨true, 0, 0, none⟩ ∧
    (syncSearchConsoleData c5EnvExpired 7).2.networkCalls = 1 := by
  refine ⟨rfl, ?_, rfl, ?_, ?_⟩ <;> decide

/-- C5 amended: for every user that has zero tracked domains and whose
stored credential still has a valid cached access token (non-empty refresh
and access tokens, expiry strictly in the future), syncSearchConsoleData
returns {success:true, domainsUpdated:0, keywordsUpdated:0}, performs no
network calls, and inserts nothing; when instead token resolution needs a
refresh or fails, that network call or failure result happens before the
zero-domain check. -/
theorem c5_zero_domains_no_calls (env : GscEnv) (userId : Nat) (u : UserRow)
    (r a : String) (t : Int)
    (hdb : env.dbAvailable = true)
    (hu : env.token.user = some u)
    (hdbtok : env.token.dbAvailable = true)
    (hr : u.googleRefreshToken = some r) (hrne : r ≠ "")
    (ha : u.googleAccessToken = some a) (hane : a ≠ "")
    (ht : u.googleTokenExpiry = some t) (hfresh : env.token.now < t)
    (hdom : env.listDomains = .ok []) :
    (syncSearchConsoleData env userId).1 = ⟨true, 0, 0, none⟩ ∧
    (syncSearchConsoleData env userId).2.networkCalls = 0 ∧
    (syncSearchConsoleData env userId).2.domainHist = [] ∧
    (syncSearchConsoleData env userId).2.keywordHist = [] ∧
    (syncSearchConsoleData env userId).2.kw.inserted = [] := by
  have htok : getValidAccessToken env.token = ⟨.ok a, 0, none⟩ :=
    getValidAccessToken_cacheHit env.token u r a t hdbtok hu hr hrne ha hane ht hfresh
  refine ⟨?_, ?_, ?_, ?_, ?_⟩ <;>
    simp [syncSearchConsoleData, hdb, htok, hdom, initScState]

/-- C5 witness environment: zero domains and a fresh cached token. -/
def c5FreshEnv : GscEnv :=
  { dbAvailable := true
    token := ⟨true, some ⟨some "r", some "cached", some 99⟩, 10, fun _ => .error "unused"⟩
    listDomains := .ok []
    fetchSitePerformance := fun _ => .error "unused"
    fetchSearchAnalytics := fun _ => .error "unused"
    keywords0 := []
    nextKeywordId := 1 }

/-- Witness for c5_zero_domains_no_calls at the concrete environment. -/
theorem c5_witness :
    c5FreshEnv.listDomains = .ok [] ∧
    ((syncSearchConsoleData c5FreshEnv 7).1 = ⟨true, 0, 0, none⟩ ∧
      (syncSearchConsoleData c5FreshEnv 7).2.networkCalls = 0 ∧
      (syncSearchConsoleData c5FreshEnv 7).2.domainHist = [] ∧
      (syncSearchConsoleData c5FreshEnv 7).2.keywordHist = [] ∧
      (syncSearchConsoleData c5FreshEnv 7).2.kw.inserted = []) :=
  ⟨rfl, c5_zero_domains_no_calls c5FreshEnv 7 ⟨some "r", some "cached", some 99⟩ "r" "cached" 99
    rfl rfl rfl rfl (by decide) rfl (by decide) rfl (by decide) rfl⟩

/-- The application-level identity of a tracked keyword: its
(domainId, keyword) pair. -/
def kwPair (k : TrackedKeywordRow) : Nat × String := (k.domainId, k.keyword)

/-- L is a legal sequence of insertions over the table base: each element
was absent — as a (domainId, keyword) pair — from base extended with the
elements inserted before it. -/
def freshAppend (base : List TrackedKeywordRow) : List TrackedKeywordRow → Prop
  | [] => True
  | k :: L => findKeyword base k.domainId k.keyword = none ∧ freshAppend (base ++ [k]) L

theorem freshAppend_compose (base L1 L2 : List TrackedKeywordRow)
    (h1 : freshAppend base L1) (h2 : freshAppend (base ++ L1) L2) :
    freshAppend base (L1 ++ L2) := by
  induction L1 generalizing base with
  | nil => simpa using h2
  | cons k L1 ih =>
    obtain ⟨hk, h1tail⟩ := h1
    refine ⟨hk, ?_⟩
    refine ih (base ++ [k]) h1tail ?_
    rw [show base ++ k :: L1 = (base ++ [k]) ++ L1 by simp] at h2
    exact h2

theorem findKeyword_append_none (l1 l2 : List TrackedKeywordRow) (d : Nat) (kw : String)
    (h : findKeyword (l1 ++ l2) d kw = none) : findKeyword l1 d kw = none := by
  rw [findKeyword, List.find?_eq_none] at h ⊢
  intro x hx
  exact h x (List.mem_append_left _ hx)

theorem freshAppend_not_in_base (base L : List TrackedKeywordRow)
    (h : freshAppend base L) :
    ∀ k ∈ L, findKeyword base k.domainId k.keyword = none := by
  induction L generalizing base with
  | nil => intro k hk; cases hk
  | cons k0 L ih =>
    obtain ⟨hk0, hrest⟩ := h
    intro k hk
    rcases List.mem_cons.mp hk with rfl | hmem
    · exact hk0
    · exact findKeyword_append_none base [k0] _ _ (ih (base ++ [k0]) hrest k hmem)

theorem freshAppend_pairs_nodup (base L : List TrackedKeywordRow)
    (h : freshAppend base L) : (L.map kwPair).Nodup := by
  induction L generalizing base with
  | nil => simp
  | cons k0 L ih =>
    obtain ⟨hk0, hrest⟩ := h
    simp only [List.map_cons, List.nodup_cons]
    refine ⟨?_, ih (base ++ [k0]) hrest⟩
    intro hmem
    obtain ⟨k, hkL, hpair⟩ := List.mem_map.mp hmem
    have hnone := freshAppend_not_in_base _ _ hrest k hkL
    rw [findKeyword, List.find?_eq_none] at hnone
    have hks := hnone k0 (List.mem_append_right _ (by simp))
    simp only [kwPair, Prod.mk.injEq] at hpair
    exact hks (by simp [hpair.1, hpair.2])

/-- The keyword-upsert state st' extends st by a legal sequence of fresh
insertions, all attributed to userId. -/
def kwGrowth (userId : Nat) (st st' : KwState) : Prop :=
  ∃ L, st'.table = st.table ++ L ∧ st'.inserted = st.inserted ++ L ∧
    freshAppend st.table L ∧ ∀ k ∈ L, k.userId = userId

theorem kwGrowth_refl (userId : Nat) (st : KwState) : kwGrowth userId st st :=
  ⟨[], by simp, by simp, trivial, by intro k hk; cases hk⟩

theorem kwGrowth_trans (userId : Nat) (st1 st2 st3 : KwState)
    (h12 : kwGrowth userId st1 st2) (h23 : kwGrowth userId st2 st3) :
    kwGrowth userId st1 st3 := by
  obtain ⟨L1, ht1, hi1, hf1, hu1⟩ := h12
  obtain ⟨L2, ht2, hi2, hf2, hu2⟩ := h23
  refine ⟨L1 ++ L2, ?_, ?_, ?_, ?_⟩
  · rw [ht2, ht1, List.append_assoc]
  · rw [hi2, hi1, List.append_assoc]
  · refine freshAppend_compose _ _ _ hf1 ?_
    rw [ht1] at hf2
    exact hf2
  · intro k hk
    rcases List.mem_append.mp hk with h | h
    · exact hu1 k h
    · exact hu2 k h

theorem upsertKeyword_growth (u d : Nat) (kw : String) (st : KwState) :
    kwGrowth u st (upsertKeyword u d kw st).2 := by
  cases h : findKeyword st.table d kw with
  | some k =>
    simp only [upsertKeyword, h]
    exact kwGrowth_refl u st
  | none =>
    simp only [upsertKeyword, h]
    refine ⟨[⟨st.nextId, u, d, kw⟩], by simp, by simp, ⟨h, trivial⟩, ?_⟩
    intro k hk
    rw [List.mem_singleton] at hk
    rw [hk]

theorem keywordLoop_growth (u d : Nat) (rows : List AnalyticsRow) (st : KwState) :
    kwGrowth u st (keywordLoop u d rows st).1 := by
  induction rows generalizing st with
  | nil => exact kwGrowth_refl u st
  | cons row rest ih =>
    simp only [keywordLoop]
    exact kwGrowth_trans u _ _ _ (upsertKeyword_growth u d (row.keys.headD "") st) (ih _)

theorem processScDomain_growth (env : GscEnv) (u : Nat) (st : ScSyncState)
    (d : TrackedDomainRow) : kwGrowth u st.kw (processScDomain env u st d).kw := by
  unfold processScDomain
  split
  · exact kwGrowth_refl u st.kw
  · cases hsp : env.fetchSitePerformance (d.searchConsoleProperty.getD "") with
    | error e =>
      simp only [hsp]
      exact kwGrowth_refl u st.kw
    | ok perf =>
      simp only [hsp]
      cases hsa : env.fetchSearchAnalytics (d.searchConsoleProperty.getD "") with
      | error e =>
        simp only [hsa]
        exact kwGrowth_refl u st.kw
      | ok orows =>
        cases orows with
        | none =>
          simp only [hsa]
          exact kwGrowth_refl u st.kw
        | some rows =>
          simp only [hsa]
          exact keywordLoop_growth u d.id rows st.kw

theorem foldl_processScDomain_growth (env : GscEnv) (u : Nat)
    (ds : List TrackedDomainRow) (st : ScSyncState) :
    kwGrowth u st.kw (ds.foldl (processScDomain env u) st).kw := by
  induction ds generalizing st with
  | nil => exact kwGrowth_refl u st.kw
  | cons d ds ih =>
    simp only [List.foldl_cons]
    exact kwGrowth_trans u _ _ _ (processScDomain_growth env u st d) (ih _)

theorem syncSearchConsoleData_growth (env : GscEnv) (userId : Nat) :
    kwGrowth userId ⟨env.keywords0, env.nextKeywordId, []⟩
      (syncSearchConsoleData env userId).2.kw := by
  unfold syncSearchConsoleData
  split
  · exact kwGrowth_refl userId _
  · cases htok : (getValidAccessToken env.token).result with
    | error e =>
      simp only [htok]
      exact kwGrowth_refl userId _
    | ok a =>
      simp only [htok]
      cases hdom : env.listDomains with
      | error e =>
        simp only [hdom]
        exact kwGrowth_refl userId _
      | ok domains =>
        simp only [hdom]
        split
        · exact kwGrowth_refl userId _
        · exact foldl_processScDomain_growth env userId domains _

/-- C10: during syncSearchConsoleData the tracked_keywords table only grows
by the rows this sync inserted; every inserted row is attributed to the
syncing user and its (domainId, keyword) pair was absent from the pre-sync
table; no two inserted rows share a pair (so a pair already present never
gains a second row, within or across syncs); and when a (domainId, keyword)
row already exists, the upsert reuses its id and inserts nothing. -/
theorem c10_no_duplicate_tracked_keywords (env : GscEnv) (userId : Nat) :
    ((syncSearchConsoleData env userId).2.kw.table =
      env.keywords0 ++ (syncSearchConsoleData env userId).2.kw.inserted) ∧
    (∀ k ∈ (syncSearchConsoleData env userId).2.kw.inserted,
      k.userId = userId ∧ findKeyword env.keywords0 k.domainId k.keyword = none) ∧
    (((syncSearchConsoleData env userId).2.kw.inserted).map kwPair).Nodup ∧
    (∀ (u d : Nat) (kw : String) (st : KwState) (k : TrackedKeywordRow),
      findKeyword st.table d kw = some k → upsertKeyword u d kw st = (k.id, st)) := by
  obtain ⟨L, ht, hi, hf, hu⟩ := syncSearchConsoleData_growth env userId
  have hiL : (syncSearchConsoleData env userId).2.kw.inserted = L := by simpa using hi
  refine ⟨?_, ?_, ?_, ?_⟩
  · rw [ht, hiL]
  · intro k hk
    rw [hiL] at hk
    exact ⟨hu k hk, freshAppend_not_in_base _ _ hf k hk⟩
  · rw [hiL]
    exact freshAppend_pairs_nodup _ _ hf
  · intro u d kw st k h
    simp [upsertKeyword, h]

/-- C10 witness environment: one tracked domain with a configured property,
a pre-existing tracked keyword "alpha" for it, and an analytics feed
returning "alpha" and "beta". -/
def c10Env : GscEnv :=
  { dbAvailable := true
    token := ⟨true, some ⟨some "r", some "cached", some 99⟩, 10, fun _ => .error "unused"⟩
    listDomains := .ok [⟨1, 9, "example.com", some "sc-domain:example.com"⟩]
    fetchSitePerformance := fun _ => .ok ⟨10, 200, 5 / 100, 3⟩
    fetchSearchAnalytics := fun _ => .ok (some
      [⟨["alpha"], 4, 50, 8 / 100, 2⟩, ⟨["beta"], 6, 150, 4 / 100, 5⟩])
    keywords0 := [⟨5, 9, 1, "alpha"⟩]
    nextKeywordId := 6 }

/-- Witness for C10: the sync inserts only the new keyword "beta",
attributed to user 9 and absent from the pre-sync table. -/
theorem c10_witness :
    (⟨6, 9, 1, "beta"⟩ : TrackedKeywordRow) ∈
      (syncSearchConsoleData c10Env 9).2.kw.inserted ∧
    ((⟨6, 9, 1, "beta"⟩ : TrackedKeywordRow).userId = 9 ∧
      findKeyword c10Env.keywords0 (⟨6, 9, 1, "beta"⟩ : TrackedKeywordRow).domainId
        (⟨6, 9, 1, "beta"⟩ : TrackedKeywordRow).keyword = none) :=
  ⟨by decide,
    (c10_no_duplicate_tracked_keywords c10Env 9).2.1 ⟨6, 9, 1, "beta"⟩ (by decide)⟩

end NexusSeo
